import Mathlib

/-!
Shallow embedding of `bmp180.py` (Micropython driver for the Bosch BMP180
pressure/temperature sensor).

Modelling conventions:
* The I2C bus is a pure oracle `Device : Nat → Nat → Nat → List Nat`
  mapping (device address, register, byte count) to the bytes returned by
  `i2c.readfrom_mem`.  Reads are side-effect free on the device, so repeated
  reads of the same register return the same bytes.
* Every driver operation returns, besides its value, the list of bus/clock
  `Event`s it performed (reads, writes, sleeps), in order.
* Python exceptions (`assert` failures, `ZeroDivisionError`) are modelled by
  `Except Err`.  An operation that fails still reports the events performed
  before the failure.
* Python's true division `/` produces floats; it is modelled by exact
  rational (`ℚ`) division, guarded by an explicit `zeroDivisionError` where
  the divisor can be zero, matching Python raising `ZeroDivisionError`.
  The float literals `0.1` and `0.01` are modelled as the exact rationals
  `1/10` and `1/100`.
* Python `int(x)` on a float truncates toward zero: `pyInt`.
  Python `x << n` on integers is exact multiplication by `2 ^ n`:
  `pyShiftLeft`.
-/

namespace BmpModel

/-! ## Module-level constants (`bmp180.py` lines 17-47) -/

def OSS_LOW_POWER : Nat := 0x00
def OSS_STANDARD : Nat := 0x01
def OSS_HIGH_RES : Nat := 0x02
def OSS_ULTRA_HIGH_RES : Nat := 0x03

def I2C_ADDRESS : Nat := 0x77
def CHIP_ID : Nat := 0x55

def CHIP_ID_REG : Nat := 0xD0
def SOFT_RESET_REG : Nat := 0xE0
def CONTROL_REG : Nat := 0xF4
def MSB_REG : Nat := 0xF6
def LSB_REG : Nat := 0xF7

/-- `READ_TEMPERATURE = b'\x2e'` -/
def READ_TEMPERATURE : List Nat := [0x2e]
/-- `READ_PRESSURE = 0x34` -/
def READ_PRESSURE : Nat := 0x34
/-- `SOFT_RESET = b'\xb6'` -/
def SOFT_RESET : List Nat := [0xb6]

def TEMPERATURE_CONVERSION_TIME : Nat := 4500
def PRESSURE_CONVERSION_TIMES : List Nat := [4500, 7500, 13500, 25500]

/-! ## Auxiliary semantics of Python primitives -/

/-- `int.from_bytes(bs, _, 'big')`: big-endian unsigned decoding. -/
def from_bytes_be (bs : List Nat) : Nat :=
  bs.foldl (fun acc b => 256 * acc + b) 0

/-- A `ustruct` format descriptor: `'>h'` (signed big-endian 16-bit) or
`'>H'` (unsigned big-endian 16-bit). -/
inductive Fmt
  | h
  | H
deriving DecidableEq

/-- `ustruct.unpack(fmt, bs)[0]` for the two formats used by the driver. -/
def unpack (fmt : Fmt) (bs : List Nat) : Int :=
  match fmt with
  | Fmt.H => Int.ofNat (from_bytes_be bs)
  | Fmt.h =>
      let v := from_bytes_be bs
      if v < 0x8000 then Int.ofNat v else Int.ofNat v - 0x10000

/-- Python `int(x)` on a float/rational: truncation toward zero
(the floor for nonnegative arguments, the negated floor of the negation
otherwise). -/
def pyInt (q : ℚ) : Int := if 0 ≤ q then ⌊q⌋ else -⌊-q⌋

/-- Python `v << n` on integers: exact multiplication by `2 ^ n`. -/
def pyShiftLeft (v : Int) (n : Nat) : Int := v * 2 ^ n

/-- Errors the driver can raise: the two `assert` sites and Python's
`ZeroDivisionError`. -/
inductive Err
  | identityMismatch
  | conversionNotComplete
  | zeroDivisionError
deriving DecidableEq

/-- One bus or clock interaction performed by the driver. -/
inductive Event
  | read (device_address register byte_count : Nat)
  | write (device_address register : Nat) (data : List Nat)
  | sleep_us (n : Nat)
deriving DecidableEq

/-- The I2C bus as a pure oracle: (device address, register, byte count) to
returned bytes. -/
def Device : Type := Nat → Nat → Nat → List Nat

/-! ## `CalibrationData` (`bmp180.py` lines 50-85) -/

/-- The 11 cached calibration coefficients; `CalibrationData.__init__`
creates them all zero (`CalibrationData.init`). -/
structure CalibrationData where
  ac1 : Int
  ac2 : Int
  ac3 : Int
  ac4 : Int
  ac5 : Int
  ac6 : Int
  b1 : Int
  b2 : Int
  mb : Int
  mc : Int
  md : Int
deriving DecidableEq

/-- All coefficients set to zero, as `CalibrationData.__init__` does. -/
def CalibrationData.init : CalibrationData :=
  ⟨0, 0, 0, 0, 0, 0, 0, 0, 0, 0, 0⟩

/-- A coefficient name, for `setattr(self.cal, name, value)`. -/
inductive CalibField
  | ac1
  | ac2
  | ac3
  | ac4
  | ac5
  | ac6
  | b1
  | b2
  | mb
  | mc
  | md
deriving DecidableEq

/-- `setattr(cal, f, v)`. -/
def CalibrationData.set (c : CalibrationData) (f : CalibField) (v : Int) :
    CalibrationData :=
  match f with
  | CalibField.ac1 => { c with ac1 := v }
  | CalibField.ac2 => { c with ac2 := v }
  | CalibField.ac3 => { c with ac3 := v }
  | CalibField.ac4 => { c with ac4 := v }
  | CalibField.ac5 => { c with ac5 := v }
  | CalibField.ac6 => { c with ac6 := v }
  | CalibField.b1 => { c with b1 := v }
  | CalibField.b2 => { c with b2 := v }
  | CalibField.mb => { c with mb := v }
  | CalibField.mc => { c with mc := v }
  | CalibField.md => { c with md := v }

/-- `CalibrationData.__CALIB_DATA`: (name, register address, format). -/
def CALIB_DATA : List (CalibField × Nat × Fmt) :=
  [(CalibField.ac1, 0xAA, Fmt.h),
   (CalibField.ac2, 0xAC, Fmt.h),
   (CalibField.ac3, 0xAE, Fmt.h),
   (CalibField.ac4, 0xB0, Fmt.H),
   (CalibField.ac5, 0xB2, Fmt.H),
   (CalibField.ac6, 0xB4, Fmt.H),
   (CalibField.b1, 0xB6, Fmt.h),
   (CalibField.b2, 0xB8, Fmt.h),
   (CalibField.mb, 0xBA, Fmt.h),
   (CalibField.mc, 0xBC, Fmt.h),
   (CalibField.md, 0xBE, Fmt.h)]

/-! ## `Bmp180` register I/O (`bmp180.py` lines 113-182) -/

/-- The mutable state of a `Bmp180` instance: its oversampling setting and
its cached calibration data. -/
structure Bmp180State where
  oss : Nat
  cal : CalibrationData
deriving DecidableEq

namespace Bmp180

/-- `Bmp180._read(register, byte_count, data_format, check_sco)`.
With `check_sco` it first reads the control register (itself a `_read`,
hence a bus read event) and asserts bit 5 (`0b100000`) is clear; on
assertion failure it raises before touching the result registers. -/
def _read (dev : Device) (register byte_count : Nat) (data_format : Option Fmt)
    (check_sco : Bool) : Except Err Int × List Event :=
  let decoded : List Nat → Int := fun raw_bytes =>
    match data_format with
    | some fmt => unpack fmt raw_bytes
    | none => Int.ofNat (from_bytes_be raw_bytes)
  if check_sco then
    if from_bytes_be (dev I2C_ADDRESS CONTROL_REG 1) &&& 0b100000 = 0 then
      (Except.ok (decoded (dev I2C_ADDRESS register byte_count)),
       [Event.read I2C_ADDRESS CONTROL_REG 1,
        Event.read I2C_ADDRESS register byte_count])
    else
      (Except.error Err.conversionNotComplete,
       [Event.read I2C_ADDRESS CONTROL_REG 1])
  else
    (Except.ok (decoded (dev I2C_ADDRESS register byte_count)),
     [Event.read I2C_ADDRESS register byte_count])

/-- `Bmp180._write(register, data)`: `i2c.writeto_mem(I2C_ADDRESS, ...)`. -/
def _write (register : Nat) (data : List Nat) : List Event :=
  [Event.write I2C_ADDRESS register data]

/-- The `chip_id` property: a live 1-byte `_read` of `CHIP_ID_REG`. -/
def chip_id (dev : Device) : Except Err Int × List Event :=
  _read dev CHIP_ID_REG 1 none false

/-- `Bmp180.__check_chip`: `assert self.chip_id == CHIP_ID`. -/
def check_chip (dev : Device) : Except Err Unit × List Event :=
  let r := chip_id dev
  match r.1 with
  | Except.error e => (Except.error e, r.2)
  | Except.ok v =>
      if v = (CHIP_ID : Int) then (Except.ok (), r.2)
      else (Except.error Err.identityMismatch, r.2)

/-- `Bmp180.__read_calibration_data`: for each entry of `__CALIB_DATA`,
`setattr(self.cal, name, self._read(addr, 2, fmt))`. -/
def read_calibration_data (dev : Device) (cal : CalibrationData) :
    CalibrationData × List Event :=
  CALIB_DATA.foldl
    (fun acc entry =>
      let r := _read dev entry.2.1 2 (some entry.2.2) false
      (match r.1 with
       | Except.ok v => acc.1.set entry.1 v
       | Except.error _ => acc.1,
       acc.2 ++ r.2))
    (cal, [])

/-- `Bmp180.__read_raw_temperature`: write `READ_TEMPERATURE` to the control
register, sleep `TEMPERATURE_CONVERSION_TIME` µs, then `_read(MSB_REG, 2,
check_sco=True)`. -/
def read_raw_temperature (dev : Device) : Except Err Int × List Event :=
  let w := _write CONTROL_REG READ_TEMPERATURE
  let s := [Event.sleep_us TEMPERATURE_CONVERSION_TIME]
  let r := _read dev MSB_REG 2 none true
  (r.1, w ++ s ++ r.2)

/-- `Bmp180.__read_raw_pressure`: write `READ_PRESSURE + (oss << 6)` to the
control register, sleep `PRESSURE_CONVERSION_TIMES[oss]` µs, then
`_read(MSB_REG, 3, check_sco=True) >> (8 - oss)`. -/
def read_raw_pressure (dev : Device) (oss : Nat) : Except Err Int × List Event :=
  let command := READ_PRESSURE + (oss <<< 6)
  let w := _write CONTROL_REG [command]
  let s := [Event.sleep_us (PRESSURE_CONVERSION_TIMES.getD oss 0)]
  let r := _read dev MSB_REG 3 none true
  (Except.map (fun (v : Int) => v >>> (8 - oss)) r.1, w ++ s ++ r.2)

/-! ## Compensation formulas (`bmp180.py` lines 184-234) -/

/-- `Bmp180.__calculate_temperature(raw_temperature)` (lines 196-199).
The division by `x1 + md` raises `ZeroDivisionError` when the divisor is
zero. -/
def calculate_temperature (cal : CalibrationData) (raw_temperature : Int) :
    Except Err ℚ :=
  let x1 : ℚ :=
    ((raw_temperature : ℚ) - (cal.ac6 : ℚ)) * (cal.ac5 : ℚ) /
      ((2 <<< 14 : Nat) : ℚ)
  if x1 + (cal.md : ℚ) = 0 then Except.error Err.zeroDivisionError else
  let x2 : ℚ := (cal.mc : ℚ) * ((2 <<< 10 : Nat) : ℚ) / (x1 + (cal.md : ℚ))
  let b5 := x1 + x2
  Except.ok ((b5 + 8) / ((2 <<< 3 : Nat) : ℚ) * 0.1)

/-- Lines 218-233 of `Bmp180.__calculate_pressure`: the pressure formula
proper, given the intermediate `b5`.  The division by `b4` (either branch of
the conditional expression for `p`) raises `ZeroDivisionError` when `b4` is
zero. -/
def calculate_pressure_from_b5 (cal : CalibrationData) (oss : Nat) (b5 : ℚ)
    (raw_pressure : Int) : Except Err ℚ :=
  let b6 : ℚ := b5 - 4000
  let x1 : ℚ :=
    ((cal.b2 : ℚ) * (b6 * b6 / ((2 <<< 11 : Nat) : ℚ))) / ((2 <<< 10 : Nat) : ℚ)
  let x2 : ℚ := (cal.ac2 : ℚ) * b6 / ((2 <<< 10 : Nat) : ℚ)
  let x3 : ℚ := x1 + x2
  let b3 : ℚ :=
    ((pyShiftLeft (pyInt ((cal.ac1 : ℚ) * 4 + x3)) oss : ℚ) + 2) / 4
  let x1 : ℚ := (cal.ac3 : ℚ) * b6 / ((2 <<< 12 : Nat) : ℚ)
  let x2 : ℚ :=
    ((cal.b1 : ℚ) * (b6 * b6 / ((2 <<< 11 : Nat) : ℚ))) / ((2 <<< 15 : Nat) : ℚ)
  let x3 : ℚ := ((x1 + x2) + 2) / ((2 <<< 1 : Nat) : ℚ)
  let b4 : ℚ := (cal.ac4 : ℚ) * (x3 + 32768) / ((2 <<< 14 : Nat) : ℚ)
  let b7 : ℚ := ((raw_pressure : ℚ) - b3) * (((50000 >>> oss : Nat) : ℚ))
  if b4 = 0 then Except.error Err.zeroDivisionError else
  let p : ℚ := if b7 < 0x80000000 then (b7 * 2) / b4 else (b7 / b4) * 2
  let x1 : ℚ := (p / ((2 <<< 7 : Nat) : ℚ)) * (p / ((2 <<< 7 : Nat) : ℚ))
  let x1 : ℚ := (x1 * 3038) / ((2 <<< 15 : Nat) : ℚ)
  let x2 : ℚ := (-7357 * p) / ((2 <<< 15 : Nat) : ℚ)
  let p : ℚ := p + (x1 + x2 + 3791) / ((2 <<< 3 : Nat) : ℚ)
  Except.ok (p * 0.01)

/-- Lines 214-233 of `Bmp180.__calculate_pressure`: everything after the
fresh raw-temperature read.  Lines 214-216 recompute `x1`, `x2`, `b5`
exactly as `__calculate_temperature` does (same `ZeroDivisionError`). -/
def compensate_pressure (cal : CalibrationData) (oss : Nat)
    (raw_temperature raw_pressure : Int) : Except Err ℚ :=
  let x1 : ℚ :=
    ((raw_temperature : ℚ) - (cal.ac6 : ℚ)) * (cal.ac5 : ℚ) /
      ((2 <<< 14 : Nat) : ℚ)
  if x1 + (cal.md : ℚ) = 0 then Except.error Err.zeroDivisionError else
  let x2 : ℚ := (cal.mc : ℚ) * ((2 <<< 10 : Nat) : ℚ) / (x1 + (cal.md : ℚ))
  let b5 := x1 + x2
  calculate_pressure_from_b5 cal oss b5 raw_pressure

/-- `Bmp180.__calculate_pressure(raw_pressure)` (lines 201-234): performs a
fresh `__read_raw_temperature` (line 213) and then the formula. -/
def calculate_pressure (dev : Device) (cal : CalibrationData) (oss : Nat)
    (raw_pressure : Int) : Except Err ℚ × List Event :=
  let r := read_raw_temperature dev
  match r.1 with
  | Except.error e => (Except.error e, r.2)
  | Except.ok raw_temperature =>
      (compensate_pressure cal oss raw_temperature raw_pressure, r.2)

/-! ## Public operations (`bmp180.py` lines 99-111, 243-275) -/

/-- `Bmp180.__init__(i2c, oss)`: store `oss`, create zeroed calibration
data, `__check_chip`, then `__read_calibration_data`. -/
def init (dev : Device) (oss : Nat) : Except Err Bmp180State × List Event :=
  let cal := CalibrationData.init
  let c := check_chip dev
  match c.1 with
  | Except.error e => (Except.error e, c.2)
  | Except.ok _ =>
      let r := read_calibration_data dev cal
      (Except.ok ⟨oss, r.1⟩, c.2 ++ r.2)

/-- `Bmp180.read_temperature()`: raw read then compensation; no instance
attribute is assigned, so the state is returned unchanged. -/
def read_temperature (dev : Device) (st : Bmp180State) :
    (Except Err ℚ × List Event) × Bmp180State :=
  let r := read_raw_temperature dev
  match r.1 with
  | Except.error e => ((Except.error e, r.2), st)
  | Except.ok raw_temp => ((calculate_temperature st.cal raw_temp, r.2), st)

/-- `Bmp180.read_pressure()`: raw pressure read then `__calculate_pressure`
(which itself performs a fresh raw temperature read); no instance attribute
is assigned, so the state is returned unchanged. -/
def read_pressure (dev : Device) (st : Bmp180State) :
    (Except Err ℚ × List Event) × Bmp180State :=
  let r := read_raw_pressure dev st.oss
  match r.1 with
  | Except.error e => ((Except.error e, r.2), st)
  | Except.ok raw_pressure =>
      let c := calculate_pressure dev st.cal st.oss raw_pressure
      ((c.1, r.2 ++ c.2), st)

/-- `Bmp180.recalibrate()`: re-runs `__read_calibration_data`, overwriting
the cached coefficients; `oss` is not assigned. -/
def recalibrate (dev : Device) (st : Bmp180State) :
    List Event × Bmp180State :=
  let r := read_calibration_data dev st.cal
  (r.2, { st with cal := r.1 })

/-- `Bmp180.reset()`: `_write(SOFT_RESET_REG, SOFT_RESET)`; no read, no
sleep, no attribute assignment. -/
def reset (st : Bmp180State) : List Event × Bmp180State :=
  (_write SOFT_RESET_REG SOFT_RESET, st)

/-- Access to the `chip_id` property on a constructed instance: a live
read, no attribute assignment. -/
def chip_id_access (dev : Device) (st : Bmp180State) :
    (Except Err Int × List Event) × Bmp180State :=
  (chip_id dev, st)

end Bmp180

/-! ## Concrete data used by the claims -/

/-- The calibration sample set of the BMP180 datasheet (and of the spec). -/
def sampleCal : CalibrationData :=
  ⟨408, -72, -14383, 32741, 32757, 23153, 6190, 4, -32768, -8711, 2868⟩

/-- A device whose every register reads as the single byte `0x00`: the
conversion-status bit is clear, the chip id is `0x00`. -/
def devIdle : Device := fun _ _ _ => [0x00]

/-- A device whose every register reads as the single byte `0x20`: bit 5
(the start-of-conversion status bit) is set. -/
def devBusy : Device := fun _ _ _ => [0x20]

/-- A device that answers `0x55` on the chip-id register and `0x00`
elsewhere. -/
def devChip : Device := fun _ register _ =>
  if register = CHIP_ID_REG then [0x55] else [0x00]

end BmpModel

namespace BmpModel

/-! ## Spec-side formula definitions (for the refinement claims C2 and C3) -/

/-- The §4.2 pressure pseudocode exactly as the spec (claim C2) states it,
with the spec's stated divisors (`…/1024`, `…/1024`, `b4 = …/16384`,
`(p/128)*(p/128)`, `…*3038/32768`, `-7357*p/32768`, final `…/8`) and the
spec's explicit `floor` on `b3`'s numerator; all division real-valued. -/
def spec_pressure_stated (cal : CalibrationData) (oss : Nat) (b5 : ℚ)
    (UP : Int) : ℚ :=
  let b6 : ℚ := b5 - 4000
  let x1 : ℚ := ((cal.b2 : ℚ) * (b6 * b6 / 4096)) / 1024
  let x2 : ℚ := (cal.ac2 : ℚ) * b6 / 1024
  let x3 : ℚ := x1 + x2
  let b3 : ℚ := ((pyShiftLeft ⌊(cal.ac1 : ℚ) * 4 + x3⌋ oss : ℚ) + 2) / 4
  let x1 : ℚ := (cal.ac3 : ℚ) * b6 / 8192
  let x2 : ℚ := ((cal.b1 : ℚ) * (b6 * b6 / 4096)) / 65536
  let x3 : ℚ := ((x1 + x2) + 2) / 4
  let b4 : ℚ := (cal.ac4 : ℚ) * (x3 + 32768) / 16384
  let b7 : ℚ := ((UP : ℚ) - b3) * (((50000 >>> oss : Nat) : ℚ))
  let p : ℚ := if b7 < 0x80000000 then (b7 * 2) / b4 else (b7 / b4) * 2
  let x1 : ℚ := (p / 128) * (p / 128)
  let x1 : ℚ := (x1 * 3038) / 32768
  let x2 : ℚ := (-7357 * p) / 32768
  let p : ℚ := p + (x1 + x2 + 3791) / 8
  p * 0.01

/-- The §4.2 pressure pseudocode with the divisors the code actually uses
(`2 << n` evaluates to `2 ^ (n + 1)`): `…/2048`, `…/2048`, `b4 = …/32768`,
`(p/256)*(p/256)`, `…*3038/65536`, `-7357*p/65536`, final `…/16`; the
conversion on `b3`'s numerator is Python `int`, i.e. truncation toward
zero (which agrees with `floor` on nonnegative numerators). -/
def spec_pressure_amended (cal : CalibrationData) (oss : Nat) (b5 : ℚ)
    (UP : Int) : ℚ :=
  let b6 : ℚ := b5 - 4000
  let x1 : ℚ := ((cal.b2 : ℚ) * (b6 * b6 / 4096)) / 2048
  let x2 : ℚ := (cal.ac2 : ℚ) * b6 / 2048
  let x3 : ℚ := x1 + x2
  let b3 : ℚ := ((pyShiftLeft (pyInt ((cal.ac1 : ℚ) * 4 + x3)) oss : ℚ) + 2) / 4
  let x1 : ℚ := (cal.ac3 : ℚ) * b6 / 8192
  let x2 : ℚ := ((cal.b1 : ℚ) * (b6 * b6 / 4096)) / 65536
  let x3 : ℚ := ((x1 + x2) + 2) / 4
  let b4 : ℚ := (cal.ac4 : ℚ) * (x3 + 32768) / 32768
  let b7 : ℚ := ((UP : ℚ) - b3) * (((50000 >>> oss : Nat) : ℚ))
  let p : ℚ := if b7 < 0x80000000 then (b7 * 2) / b4 else (b7 / b4) * 2
  let x1 : ℚ := (p / 256) * (p / 256)
  let x1 : ℚ := (x1 * 3038) / 65536
  let x2 : ℚ := (-7357 * p) / 65536
  let p : ℚ := p + (x1 + x2 + 3791) / 16
  p * 0.01

/-- The divisor of the `p` branch: the code's `b4` intermediate, as a
function of the calibration data and `b5` (with the `2 << n` divisors
written out). -/
def b4_term (cal : CalibrationData) (b5 : ℚ) : ℚ :=
  let b6 : ℚ := b5 - 4000
  let x1 : ℚ := (cal.ac3 : ℚ) * b6 / 8192
  let x2 : ℚ := ((cal.b1 : ℚ) * (b6 * b6 / 4096)) / 65536
  let x3 : ℚ := ((x1 + x2) + 2) / 4
  (cal.ac4 : ℚ) * (x3 + 32768) / 32768

/-- The temperature formula exactly as the spec (claim C3) states it:
`x1 = (UT - ac6) * ac5 / 32768`, `x2 = mc * 2048 / (x1 + md)`,
`b5 = x1 + x2`, `temperature = (b5 + 8) / 16 * 0.1`, all division
real-valued. -/
def spec_temperature_formula (cal : CalibrationData) (UT : Int) : ℚ :=
  let x1 : ℚ := ((UT : ℚ) - (cal.ac6 : ℚ)) * (cal.ac5 : ℚ) / 32768
  let x2 : ℚ := (cal.mc : ℚ) * 2048 / (x1 + (cal.md : ℚ))
  let b5 := x1 + x2
  (b5 + 8) / 16 * 0.1

/-- The code's `x1` intermediate of the temperature formula (the code's
divisor `2 << 14` written out as `32768`); `x1 + md` is the divisor whose
vanishing raises `ZeroDivisionError`. -/
def x1_term (cal : CalibrationData) (UT : Int) : ℚ :=
  ((UT : ℚ) - (cal.ac6 : ℚ)) * (cal.ac5 : ℚ) / 32768

/-! ## Theorems -/

/-- **C1.** Given the datasheet sample calibration set, `UT = 27898`,
`UP = 23843` and `oss = 0`, the temperature compensation rounds to 15.0 °C
at the nearest 0.1 — but the pressure compensation rounds to 699.61 hPa at
the nearest 0.01, not to the 699.64 hPa the claim states: with the driver's
real-valued division the result differs from the datasheet's
integer-truncating reference arithmetic.  This theorem refutes the claim as
stated at its own concrete input. -/
theorem c1_counterexample :
    (Bmp180.compensate_pressure sampleCal 0 27898 23843).map
        (fun p => round (100 * p)) ≠ Except.ok 69964 := by
  simp only [Bmp180.compensate_pressure, Bmp180.calculate_pressure_from_b5,
    sampleCal, pyInt, pyShiftLeft, Nat.shiftLeft_eq, Nat.shiftRight_eq_div_pow]
  norm_num [round_eq, Except.map]

/-- **C1 (amended).** Given the datasheet sample calibration set,
`UT = 27898`, `UP = 23843` and `oss = 0`, the temperature compensation
returns a value that rounds to 15.0 °C at the nearest 0.1, and the pressure
compensation returns a value that rounds to 699.61 hPa at the nearest
0.01. -/
theorem c1_datasheet_sample :
    (Bmp180.calculate_temperature sampleCal 27898).map
        (fun t => round (10 * t)) = Except.ok 150 ∧
    (Bmp180.compensate_pressure sampleCal 0 27898 23843).map
        (fun p => round (100 * p)) = Except.ok 69961 := by
  constructor
  · simp only [Bmp180.calculate_temperature, sampleCal, Nat.shiftLeft_eq]
    norm_num [round_eq, Except.map]
  · simp only [Bmp180.compensate_pressure, Bmp180.calculate_pressure_from_b5,
      sampleCal, pyInt, pyShiftLeft, Nat.shiftLeft_eq, Nat.shiftRight_eq_div_pow]
    norm_num [round_eq, Except.map]

/-- **C2.** The claim that the pressure compensation computes the §4.2
pseudocode *with the spec's stated divisors* (`b4 = ac4*(x3+32768)/16384`,
`x1 = (p/128)*(p/128)`, `x1 = (x1*3038)/32768`, `x2 = (-7357*p)/32768`,
`p = p + (x1+x2+3791)/8`, and `…/1024` in the two first terms) is false:
at the concrete input `cal = sampleCal`, `oss = 0`, `b5 = 2400`,
`UP = 23843` the code's result differs from the stated formula.  (The
code's `2 << n` divisors are `2 ^ (n+1)`, not the `2 ^ n` the spec's
comments assume.) -/
theorem c2_stated_divisors_false :
    Bmp180.calculate_pressure_from_b5 sampleCal 0 2400 23843 ≠
      Except.ok (spec_pressure_stated sampleCal 0 2400 23843) := by
  simp only [Bmp180.calculate_pressure_from_b5, spec_pressure_stated,
    sampleCal, pyInt, pyShiftLeft, Nat.shiftLeft_eq, Nat.shiftRight_eq_div_pow]
  norm_num

/-- **C2 (amended).** For every calibration set, oversampling setting in
{0,1,2,3}, intermediate `b5` and raw pressure `UP`, the pressure
compensation computes exactly the §4.2 pseudocode with the code's divisors
(`…/2048`, `…/2048`, `b4 = …/32768`, `(p/256)*(p/256)`, `…*3038/65536`,
`-7357*p/65536`, final `…/16`), truncation toward zero on `b3`'s numerator
before the shift, all other division real-valued, returning `p * 0.01` —
and raises `ZeroDivisionError` exactly when the `b4` divisor is zero. -/
theorem c2_pressure_formula (cal : CalibrationData) (oss : Nat) (b5 : ℚ)
    (UP : Int) (hoss : oss < 4) :
    Bmp180.calculate_pressure_from_b5 cal oss b5 UP =
      if b4_term cal b5 = 0 then Except.error Err.zeroDivisionError
      else Except.ok (spec_pressure_amended cal oss b5 UP) := by
  simp only [Bmp180.calculate_pressure_from_b5, spec_pressure_amended,
    b4_term, Nat.shiftLeft_eq]
  norm_num

/-- **C2 (amended) witness**: the amended theorem applied at the datasheet
sample input. -/
theorem c2_pressure_formula_sample :
    (0 : Nat) < 4 ∧
    Bmp180.calculate_pressure_from_b5 sampleCal 0 2400 23843 =
      if b4_term sampleCal 2400 = 0 then Except.error Err.zeroDivisionError
      else Except.ok (spec_pressure_amended sampleCal 0 2400 23843) :=
  ⟨by norm_num, c2_pressure_formula sampleCal 0 2400 23843 (by norm_num)⟩

/-- **C3.** For every raw temperature `UT` and calibration data, the
temperature compensation computes exactly
`x1 = (UT - ac6) * ac5 / 32768`, `x2 = mc * 2048 / (x1 + md)`,
`b5 = x1 + x2`, and returns `(b5 + 8) / 16 * 0.1` degrees Celsius with
real-valued division throughout — raising `ZeroDivisionError` exactly when
`x1 + md` is zero. -/
theorem c3_temperature_formula (cal : CalibrationData) (UT : Int) :
    Bmp180.calculate_temperature cal UT =
      if x1_term cal UT + (cal.md : ℚ) = 0 then
        Except.error Err.zeroDivisionError
      else Except.ok (spec_temperature_formula cal UT) := by
  simp only [Bmp180.calculate_temperature, spec_temperature_formula,
    x1_term, Nat.shiftLeft_eq]
  norm_num

/-- **C4.** For every device whose status bit reads clear and every
oversampling setting in {0,1,2,3}, `read_pressure` writes control byte
`0x34 + (oss << 6)`, sleeps the duration from the table
`{4500, 7500, 13500, 25500}` µs indexed by `oss`, reads 3 bytes big-endian,
right-shifts the raw value by `8 - oss` bits, and performs one full fresh
temperature conversion (command write, wait, status check, raw read) whose
raw value feeds the pressure formula — it never reuses a prior `b5`. -/
theorem c4_read_pressure (dev : Device) (st : Bmp180State)
    (hoss : st.oss < 4)
    (hsco : from_bytes_be (dev I2C_ADDRESS CONTROL_REG 1) &&& 0b100000 = 0) :
    (Bmp180.read_pressure dev st).1.2 =
      [Event.write I2C_ADDRESS CONTROL_REG [0x34 + (st.oss <<< 6)],
       Event.sleep_us ([4500, 7500, 13500, 25500].getD st.oss 0),
       Event.read I2C_ADDRESS CONTROL_REG 1,
       Event.read I2C_ADDRESS MSB_REG 3,
       Event.write I2C_ADDRESS CONTROL_REG [0x2e],
       Event.sleep_us 4500,
       Event.read I2C_ADDRESS CONTROL_REG 1,
       Event.read I2C_ADDRESS MSB_REG 2] ∧
    (Bmp180.read_pressure dev st).1.1 =
      Bmp180.compensate_pressure st.cal st.oss
        (Int.ofNat (from_bytes_be (dev I2C_ADDRESS MSB_REG 2)))
        (Int.ofNat (from_bytes_be (dev I2C_ADDRESS MSB_REG 3)) >>> (8 - st.oss)) := by
  constructor <;>
    simp [Bmp180.read_pressure, Bmp180.read_raw_pressure,
      Bmp180.calculate_pressure, Bmp180.read_raw_temperature, Bmp180._read,
      Bmp180._write, hsco, READ_PRESSURE, READ_TEMPERATURE,
      PRESSURE_CONVERSION_TIMES, TEMPERATURE_CONVERSION_TIME, Except.map]

/-- **C4 witness**: the theorem applied to the always-idle device with
`oss = 1`. -/
theorem c4_read_pressure_idle :
    ((⟨1, sampleCal⟩ : Bmp180State).oss < 4 ∧
      from_bytes_be (devIdle I2C_ADDRESS CONTROL_REG 1) &&& 0b100000 = 0) ∧
    (Bmp180.read_pressure devIdle ⟨1, sampleCal⟩).1.2 =
      [Event.write I2C_ADDRESS CONTROL_REG
         [0x34 + ((⟨1, sampleCal⟩ : Bmp180State).oss <<< 6)],
       Event.sleep_us
         ([4500, 7500, 13500, 25500].getD (⟨1, sampleCal⟩ : Bmp180State).oss 0),
       Event.read I2C_ADDRESS CONTROL_REG 1,
       Event.read I2C_ADDRESS MSB_REG 3,
       Event.write I2C_ADDRESS CONTROL_REG [0x2e],
       Event.sleep_us 4500,
       Event.read I2C_ADDRESS CONTROL_REG 1,
       Event.read I2C_ADDRESS MSB_REG 2] :=
  ⟨⟨by decide, by decide⟩,
   (c4_read_pressure devIdle ⟨1, sampleCal⟩ (by decide) (by decide)).1⟩

/-- **C5.** Construction: if the chip-id register does not decode to
`0x55`, `__init__` fails with the identity assertion having performed only
the single chip-id read — no calibration-coefficient read is attempted; if
it decodes to `0x55`, construction succeeds with a full calibration refresh
of the zero-initialised store. -/
theorem c5_constructor_chip_check (dev : Device) (oss : Nat) :
    (from_bytes_be (dev I2C_ADDRESS CHIP_ID_REG 1) ≠ CHIP_ID →
      Bmp180.init dev oss =
        (Except.error Err.identityMismatch,
         [Event.read I2C_ADDRESS CHIP_ID_REG 1])) ∧
    (from_bytes_be (dev I2C_ADDRESS CHIP_ID_REG 1) = CHIP_ID →
      Bmp180.init dev oss =
        (Except.ok ⟨oss, (Bmp180.read_calibration_data dev CalibrationData.init).1⟩,
         Event.read I2C_ADDRESS CHIP_ID_REG 1 ::
           (Bmp180.read_calibration_data dev CalibrationData.init).2)) := by
  constructor <;> intro h <;>
    simp [Bmp180.init, Bmp180.check_chip, Bmp180.chip_id, Bmp180._read, h]

/-- **C5 witness**: the failing branch at the all-zero device (chip id
`0x00`), the succeeding branch at the device answering `0x55`. -/
theorem c5_constructor_chip_check_cases :
    Bmp180.init devIdle 1 =
      (Except.error Err.identityMismatch,
       [Event.read I2C_ADDRESS CHIP_ID_REG 1]) ∧
    Bmp180.init devChip 1 =
      (Except.ok ⟨1, (Bmp180.read_calibration_data devChip CalibrationData.init).1⟩,
       Event.read I2C_ADDRESS CHIP_ID_REG 1 ::
         (Bmp180.read_calibration_data devChip CalibrationData.init).2) :=
  ⟨(c5_constructor_chip_check devIdle 1).1 (by decide),
   (c5_constructor_chip_check devChip 1).2 (by decide)⟩

/-- **C6.** A full calibration refresh issues exactly one 2-byte read per
coefficient, at addresses `0xAA` through `0xBE` in order, decodes each
big-endian with its fixed signedness (`>H` for `ac4`, `ac5`, `ac6`, `>h`
for the rest), and stores all 11 values; `recalibrate` performs exactly
this refresh on the cached store, leaving `oss` unchanged. -/
theorem c6_calibration_refresh (dev : Device) (cal : CalibrationData)
    (st : Bmp180State) :
    Bmp180.read_calibration_data dev cal =
      (⟨unpack Fmt.h (dev I2C_ADDRESS 0xAA 2),
        unpack Fmt.h (dev I2C_ADDRESS 0xAC 2),
        unpack Fmt.h (dev I2C_ADDRESS 0xAE 2),
        unpack Fmt.H (dev I2C_ADDRESS 0xB0 2),
        unpack Fmt.H (dev I2C_ADDRESS 0xB2 2),
        unpack Fmt.H (dev I2C_ADDRESS 0xB4 2),
        unpack Fmt.h (dev I2C_ADDRESS 0xB6 2),
        unpack Fmt.h (dev I2C_ADDRESS 0xB8 2),
        unpack Fmt.h (dev I2C_ADDRESS 0xBA 2),
        unpack Fmt.h (dev I2C_ADDRESS 0xBC 2),
        unpack Fmt.h (dev I2C_ADDRESS 0xBE 2)⟩,
       [Event.read I2C_ADDRESS 0xAA 2, Event.read I2C_ADDRESS 0xAC 2,
        Event.read I2C_ADDRESS 0xAE 2, Event.read I2C_ADDRESS 0xB0 2,
        Event.read I2C_ADDRESS 0xB2 2, Event.read I2C_ADDRESS 0xB4 2,
        Event.read I2C_ADDRESS 0xB6 2, Event.read I2C_ADDRESS 0xB8 2,
        Event.read I2C_ADDRESS 0xBA 2, Event.read I2C_ADDRESS 0xBC 2,
        Event.read I2C_ADDRESS 0xBE 2]) ∧
    Bmp180.recalibrate dev st =
      ((Bmp180.read_calibration_data dev st.cal).2,
       ⟨st.oss, (Bmp180.read_calibration_data dev st.cal).1⟩) := by
  exact ⟨rfl, rfl⟩

/-- **C7.** For a raw-value read with the status check enabled: if bit 5 of
the control register reads nonzero, `_read` raises the conversion-not-
complete assertion having read only the control register — the result
registers are not read, and `read_temperature`/`read_pressure` surface the
error with no compensation applied; if bit 5 reads zero, the raw read
proceeds exactly as a plain read of the requested register. -/
theorem c7_status_check (dev : Device) (st : Bmp180State)
    (register byte_count : Nat) (fmt : Option Fmt) :
    (from_bytes_be (dev I2C_ADDRESS CONTROL_REG 1) &&& 0b100000 ≠ 0 →
      Bmp180._read dev register byte_count fmt true =
        (Except.error Err.conversionNotComplete,
         [Event.read I2C_ADDRESS CONTROL_REG 1]) ∧
      (Bmp180.read_temperature dev st).1 =
        (Except.error Err.conversionNotComplete,
         [Event.write I2C_ADDRESS CONTROL_REG [0x2e], Event.sleep_us 4500,
          Event.read I2C_ADDRESS CONTROL_REG 1]) ∧
      (Bmp180.read_pressure dev st).1 =
        (Except.error Err.conversionNotComplete,
         [Event.write I2C_ADDRESS CONTROL_REG [0x34 + (st.oss <<< 6)],
          Event.sleep_us (PRESSURE_CONVERSION_TIMES.getD st.oss 0),
          Event.read I2C_ADDRESS CONTROL_REG 1])) ∧
    (from_bytes_be (dev I2C_ADDRESS CONTROL_REG 1) &&& 0b100000 = 0 →
      Bmp180._read dev register byte_count fmt true =
        ((Bmp180._read dev register byte_count fmt false).1,
         Event.read I2C_ADDRESS CONTROL_REG 1 ::
           (Bmp180._read dev register byte_count fmt false).2)) := by
  constructor <;> intro h <;>
    simp [Bmp180._read, Bmp180.read_temperature, Bmp180.read_pressure,
      Bmp180.read_raw_temperature, Bmp180.read_raw_pressure,
      Bmp180.calculate_pressure, Bmp180._write, h, READ_PRESSURE,
      READ_TEMPERATURE, PRESSURE_CONVERSION_TIMES,
      TEMPERATURE_CONVERSION_TIME, Except.map]

/-- **C7 witness**: the busy branch at the device whose status bit is set,
the clear branch at the always-idle device. -/
theorem c7_status_check_cases :
    Bmp180._read devBusy MSB_REG 2 none true =
      (Except.error Err.conversionNotComplete,
       [Event.read I2C_ADDRESS CONTROL_REG 1]) ∧
    Bmp180._read devIdle MSB_REG 2 none true =
      ((Bmp180._read devIdle MSB_REG 2 none false).1,
       Event.read I2C_ADDRESS CONTROL_REG 1 ::
         (Bmp180._read devIdle MSB_REG 2 none false).2) :=
  ⟨((c7_status_check devBusy ⟨1, sampleCal⟩ MSB_REG 2 none).1 (by decide)).1,
   (c7_status_check devIdle ⟨1, sampleCal⟩ MSB_REG 2 none).2 (by decide)⟩

/-- **C8.** Every public operation leaves the oversampling setting at its
construction-time value, and `read_temperature`, `read_pressure`, `reset`
and the `chip_id` access also leave the cached calibration coefficients
(indeed the whole state) unchanged. -/
theorem c8_state_frame (dev : Device) (st : Bmp180State) :
    (Bmp180.read_temperature dev st).2 = st ∧
    (Bmp180.read_pressure dev st).2 = st ∧
    (Bmp180.recalibrate dev st).2.oss = st.oss ∧
    (Bmp180.reset st).2 = st ∧
    (Bmp180.chip_id_access dev st).2 = st := by
  refine ⟨?_, ?_, rfl, rfl, rfl⟩ <;>
    · simp only [Bmp180.read_temperature, Bmp180.read_pressure]
      split <;> rfl

/-- **C9.** The temperature compensation divides by `x1 + md` with no
guard: it raises `ZeroDivisionError` exactly when `x1 + md = 0` (and so
does the temperature sub-computation inside the pressure path), and under
the precondition `x1 + md ≠ 0` that error branch is unreachable — the
temperature computation returns a value. -/
theorem c9_temperature_zero_division (cal : CalibrationData) (oss : Nat)
    (UT UP : Int) :
    (Bmp180.calculate_temperature cal UT =
        Except.error Err.zeroDivisionError ↔
      x1_term cal UT + (cal.md : ℚ) = 0) ∧
    (x1_term cal UT + (cal.md : ℚ) = 0 →
      Bmp180.compensate_pressure cal oss UT UP =
        Except.error Err.zeroDivisionError) ∧
    (x1_term cal UT + (cal.md : ℚ) ≠ 0 →
      ∃ t, Bmp180.calculate_temperature cal UT = Except.ok t) := by
  refine ⟨?_, ?_, ?_⟩
  · simp only [Bmp180.calculate_temperature, x1_term]
    rw [(by norm_num [Nat.shiftLeft_eq] : ((2 <<< 14 : Nat) : ℚ) = 32768)]
    split_ifs with h <;> simp [h]
  · intro h
    simp only [x1_term] at h
    simp only [Bmp180.compensate_pressure]
    rw [(by norm_num [Nat.shiftLeft_eq] : ((2 <<< 14 : Nat) : ℚ) = 32768)]
    rw [if_pos h]
  · intro h
    simp only [x1_term] at h
    simp only [Bmp180.calculate_temperature]
    rw [(by norm_num [Nat.shiftLeft_eq] : ((2 <<< 14 : Nat) : ℚ) = 32768)]
    rw [if_neg h]
    exact ⟨_, rfl⟩

/-- **C9 witness**: the zero-divisor case at the all-zero calibration set
(`x1 + md = 0`), the nonzero case at the datasheet sample. -/
theorem c9_temperature_zero_division_cases :
    Bmp180.calculate_temperature CalibrationData.init 0 =
      Except.error Err.zeroDivisionError ∧
    Bmp180.compensate_pressure CalibrationData.init 0 0 0 =
      Except.error Err.zeroDivisionError ∧
    ∃ t, Bmp180.calculate_temperature sampleCal 27898 = Except.ok t :=
  ⟨(c9_temperature_zero_division CalibrationData.init 0 0 0).1.mpr
      (by norm_num [x1_term, CalibrationData.init, Nat.shiftLeft_eq]),
   (c9_temperature_zero_division CalibrationData.init 0 0 0).2.1
      (by norm_num [x1_term, CalibrationData.init, Nat.shiftLeft_eq]),
   (c9_temperature_zero_division sampleCal 0 27898 0).2.2
      (by norm_num [x1_term, sampleCal, Nat.shiftLeft_eq])⟩

/-- **C10.** The coefficient `mb` is read and cached but never used: two
drivers whose states differ only in `mb` return identical temperature and
pressure results on every device. -/
theorem c10_mb_unused (dev : Device) (st : Bmp180State) (v : Int) :
    (Bmp180.read_temperature dev { st with cal := { st.cal with mb := v } }).1.1 =
      (Bmp180.read_temperature dev st).1.1 ∧
    (Bmp180.read_pressure dev { st with cal := { st.cal with mb := v } }).1.1 =
      (Bmp180.read_pressure dev st).1.1 := by
  constructor <;>
    · simp only [Bmp180.read_temperature, Bmp180.read_pressure]
      split <;> rfl

end BmpModel
